import Mathlib

/-!
Verification development for the readyset ProxySQL scheduler.

The repository is a control-loop scheduler that reconciles a SQL router
(ProxySQL) with one or more Readyset accelerator instances.  The Lean
definitions below are a shallow embedding of the scheduler logic found in
src/readyset.rs, src/hosts.rs, src/proxysql.rs and src/queries.rs: pure Rust
functions become Lean functions, the SQL side effects of a run become an
explicit list of events, and the responses of the external router and
accelerators are passed in as explicit data.  Wall-clock time, chrono
timestamp parsing and the wire protocol are abstracted: a rule comment
timestamp is carried as the integer number of seconds it denotes, and every
SQL statement result that the code inspects is a parameter of the embedding.
-/

namespace ReadysetScheduler

/-- Decidable equality for Except, used so that concrete runs can be settled
by evaluation. -/
instance exceptDecEq {ε α : Type} [DecidableEq ε] [DecidableEq α] : DecidableEq (Except ε α) :=
  fun x y =>
    match x, y with
    | .ok a, .ok b =>
      if h : a = b then isTrue (by rw [h]) else isFalse (fun hc => h (Except.ok.inj hc))
    | .ok _, .error _ => isFalse (fun hc => Except.noConfusion hc)
    | .error _, .ok _ => isFalse (fun hc => Except.noConfusion hc)
    | .error e, .error f =>
      if h : e = f then isTrue (by rw [h]) else isFalse (fun hc => h (Except.error.inj hc))

/-- src/config.rs: enum DatabaseType. -/
inductive DatabaseType
  | MySQL
  | PostgreSQL
deriving DecidableEq

/-- src/readyset.rs: enum ProxySQLStatus (the router-side server status). -/
inductive ProxySQLStatus
  | Online
  | Shunned
  | OfflineSoft
  | OfflineHard
deriving DecidableEq

/-- src/readyset.rs: enum ReadysetStatus (the accelerator self-reported status). -/
inductive ReadysetStatus
  | Online
  | SnapshotInProgress
  | Maintenance
  | Unknown
deriving DecidableEq

/-- src/readyset.rs lines 45-54: impl From ReadysetStatus for ProxySQLStatus. -/
def proxySQLStatusFromReadyset : ReadysetStatus → ProxySQLStatus
  | .Online => .Online
  | .SnapshotInProgress => .Shunned
  | .Maintenance => .OfflineSoft
  | .Unknown => .Shunned

/-- src/hosts.rs: enum ProxyStatus (the hosts.rs variant of the router status). -/
inductive ProxyStatus
  | Online
  | Shunned
  | OfflineSoft
  | OfflineHard
deriving DecidableEq

/-- src/hosts.rs lines 43-52: impl From ReadysetStatus for ProxyStatus.  The
ReadysetStatus enum in hosts.rs has the same four constructors as the one in
readyset.rs, so it is shared here. -/
def proxyStatusFromReadyset : ReadysetStatus → ProxyStatus
  | .Online => .Online
  | .SnapshotInProgress => .Shunned
  | .Maintenance => .OfflineSoft
  | .Unknown => .Shunned

/-- Rust str::to_lowercase restricted to the ASCII strings the scheduler
compares against. -/
def strToLower (s : String) : String := ⟨s.data.map Char.toLower⟩

/-- src/readyset.rs: impl From String for ReadysetStatus (match on
to_lowercase; anything unrecognised is Unknown). -/
def readysetStatusFromString (s : String) : ReadysetStatus :=
  if strToLower s = "online" then .Online
  else if strToLower s = "snapshot in progress" then .SnapshotInProgress
  else if strToLower s = "maintenance mode" then .Maintenance
  else .Unknown

/-- One scan step of Rust str::replace: if the pattern is a prefix of the
remaining input emit the replacement and continue past the match, otherwise
emit one character and continue.  Matches are found left to right and do not
overlap, exactly as in Rust.  The fuel argument bounds the recursion; every
step consumes at least one character of a nonempty pattern input, so fuel
equal to the input length is always enough. -/
def replaceAllFuel (pat rep : List Char) : Nat → List Char → List Char
  | 0, s => s
  | _ + 1, [] => []
  | fuel + 1, c :: rest =>
    if pat.isPrefixOf (c :: rest) then
      rep ++ replaceAllFuel pat rep fuel (List.drop pat.length (c :: rest))
    else
      c :: replaceAllFuel pat rep fuel rest

/-- Rust str::replace(pat, rep) on character lists. -/
def listReplace (s pat rep : List Char) : List Char :=
  replaceAllFuel pat rep s.length s

/-- src/queries.rs lines 268-272: QueryDiscovery::replace_placeholders.
The digest text is rewritten by two chained Rust str::replace calls. -/
def replace_placeholders (query : String) : String :=
  ⟨listReplace (listReplace query.data "?,?,?,...".data "?,?,?".data) "?-?-?".data "?".data⟩

/-- Whether pat occurs as a contiguous substring of s. -/
def containsSeq (pat : List Char) : List Char → Bool
  | [] => pat.isPrefixOf []
  | c :: rest => pat.isPrefixOf (c :: rest) || containsSeq pat rest

/-- src/readyset.rs lines 209-226: the row-interpretation loop of
Readyset::check_readyset_is_ready.  Rows are scanned in order; the first row
recognised by one of the three guards decides both the stored
readyset_status (first component) and the returned ProxySQLStatus (second
component); if no row is recognised the status is Unknown/SHUNNED. -/
def interpretStatusRows : List (String × String) → ReadysetStatus × ProxySQLStatus
  | [] => (.Unknown, .Shunned)
  | (field, value) :: rest =>
    if field = "Snapshot Status" ∧ value = "Completed" then (.Online, .Online)
    else if field = "Snapshot Status" ∧ value = "In Progress" then (.SnapshotInProgress, .Shunned)
    else if field = "Status" then
      (readysetStatusFromString value, proxySQLStatusFromReadyset (readysetStatusFromString value))
    else interpretStatusRows rest

/-- src/readyset.rs lines 204-232: Readyset::check_readyset_is_ready.  A
missing connection or a failed SHOW READYSET STATUS query is an error;
otherwise the rows are interpreted by interpretStatusRows. -/
def check_readyset_is_ready (hasConn : Bool)
    (queryResult : Except String (List (String × String))) :
    Except String (ReadysetStatus × ProxySQLStatus) :=
  if hasConn then
    match queryResult with
    | .ok rows => .ok (interpretStatusRows rows)
    | .error err => .error ("Failed to execute query: " ++ err)
  else .error "Connection to Readyset instance is not established"

/-- A row that one of the three guards of the interpretation loop fires on. -/
def recognisedRow (r : String × String) : Bool :=
  (r.1 == "Snapshot Status" && (r.2 == "Completed" || r.2 == "In Progress")) || r.1 == "Status"

/-- The observable router and accelerator actions of a scheduler run.
promoteRule is the UPDATE that clears mirror_hostgroup, sets
destination_hostgroup = readyset_hostgroup and rewrites the comment;
probeQuery is the support probe of a candidate; warnMsg is a logged warning;
noteStatusChange is the logged health-sweep transition; cacheInstall is the
CREATE CACHE statement on an accelerator; insertRule is the INSERT INTO
query_rules (mirror = true for a mirror rule); the remaining constructors
are the LOAD/SAVE commits and the server-table UPDATE. -/
inductive Event
  | promoteRule (ruleId : Nat) (newComment : String)
  | probeQuery (digestText : String)
  | warnMsg (msg : String)
  | noteStatusChange (hostname : String)
  | cacheInstall (hostIdx : Nat) (digest : String)
  | insertRule (digest : String) (mirror : Bool)
  | loadQueryRules
  | saveQueryRules
  | updateServer (hostgroup : Nat) (hostname : String) (port : Nat) (status : ProxySQLStatus)
  | loadServers
  | saveServers
deriving DecidableEq

/-- src/proxysql.rs: MIRROR_QUERY_TOKEN. -/
def mirrorQueryToken : String := "Mirror by readyset scheduler at"

/-- src/proxysql.rs: DESTINATION_QUERY_TOKEN. -/
def destinationQueryToken : String := "Added by readyset scheduler at"

/-- A rule row returned by the mirror-rule SELECT of adjust_mirror_rules
(comment LIKE the mirror token followed by a timestamp shape).  created is
the timestamp parsed from the comment, in seconds; the source panics on an
unparseable comment, which the SELECT shape rules out here. -/
structure MirrorRule where
  rule_id : Nat
  comment : String
  created : Int
deriving DecidableEq

/-- src/proxysql.rs lines 213-258: ProxySQL::adjust_mirror_rules.  now is
the current wall clock in seconds and dateFormatted its formatted text; for
each selected rule the elapsed seconds are compared strictly against
warmup_time_s, and an eligible rule gets one UPDATE that clears the mirror
hostgroup, sets the destination hostgroup and appends the destination token
to the comment.  Returns the UPDATE events in rule order and the
updated_rules flag.  The function does not consult dry_run. -/
def adjust_mirror_rules (now : Int) (dateFormatted : String) (warmup_time_s : Nat) :
    List MirrorRule → List Event × Bool
  | [] => ([], false)
  | r :: rest =>
    let tailResult := adjust_mirror_rules now dateFormatted warmup_time_s rest
    if (warmup_time_s : Int) < now - r.created then
      (Event.promoteRule r.rule_id
          (r.comment ++ "\n " ++ destinationQueryToken ++ ": " ++ dateFormatted) :: tailResult.1,
       true)
    else tailResult

/-- src/queries.rs: struct Query. -/
structure Query where
  digest_text : String
  digest : String
  schema : String
  user : String
deriving DecidableEq

/-- An accelerator handle as the discovery run sees it: whether ProxySQL
lists it ONLINE (is_proxysql_online) and whether its connection was
established at construction time. -/
structure HostHandle where
  hostname : String
  port : Nat
  online : Bool
  hasConn : Bool
deriving DecidableEq

/-- The accelerator responses consumed by one support probe: whether the
USE statement succeeds, and the result of the EXPLAIN CREATE CACHE query
(error, no row, or a three-column row). -/
structure ProbeEnv where
  useOk : Bool
  explainResult : Except String (Option (String × String × String))
deriving DecidableEq

/-- The accelerator responses consumed by one cache_query call: whether the
USE statement and the CREATE CACHE statement succeed. -/
structure CacheEnv where
  useOk : Bool
  createOk : Bool
deriving DecidableEq

/-- Result of an accelerator operation: a returned value, or a process
abort (a Rust panic caused by todo, unwrap or expect). -/
inductive OpResult (α : Type)
  | ok (a : α)
  | panicked (msg : String)
deriving DecidableEq

/-- src/readyset.rs lines 245-262: Readyset::check_query_support.  For a
PostgreSQL accelerator the function hits todo and aborts before issuing any
SQL.  Otherwise, with a connection, USE schema is issued through expect (a
failure aborts), then EXPLAIN CREATE CACHE FROM digest_text; a query error
propagates as Err, no row is Ok false, and a row answers via its third
column (yes or cached).  Without a connection the result is Ok false.
The second component lists the SQL statements issued to the accelerator. -/
def check_query_support (databaseType : DatabaseType) (hasConn : Bool)
    (digest_text schema : String) (env : ProbeEnv) :
    OpResult (Except String Bool) × List String :=
  if databaseType = .PostgreSQL then
    (.panicked "PostgreSQL Readyset query support check", [])
  else if hasConn then
    if env.useOk then
      match env.explainResult with
      | .error e =>
        (.ok (.error e), ["USE " ++ schema, "EXPLAIN CREATE CACHE FROM " ++ digest_text])
      | .ok none =>
        (.ok (.ok false), ["USE " ++ schema, "EXPLAIN CREATE CACHE FROM " ++ digest_text])
      | .ok (some row) =>
        (.ok (.ok (row.2.2 == "yes" || row.2.2 == "cached")),
         ["USE " ++ schema, "EXPLAIN CREATE CACHE FROM " ++ digest_text])
    else (.panicked "Failed to use schema", ["USE " ++ schema])
  else (.ok (.ok false), [])

/-- src/readyset.rs lines 270-286: Readyset::cache_query.  For a PostgreSQL
accelerator the function hits todo and aborts before issuing any SQL.
Without a connection it returns Err; otherwise USE and CREATE CACHE are
issued, each propagating a failure as Err. -/
def cache_query (databaseType : DatabaseType) (hasConn : Bool) (query : Query)
    (env : CacheEnv) : OpResult (Except String Unit) × List String :=
  if databaseType = .PostgreSQL then
    (.panicked "PostgreSQL Readyset query caching", [])
  else if hasConn then
    if env.useOk then
      if env.createOk then
        (.ok (.ok ()),
         ["USE " ++ query.schema,
          "CREATE CACHE d_" ++ query.digest ++ " FROM " ++ query.digest_text])
      else
        (.ok (.error "CREATE CACHE failed"),
         ["USE " ++ query.schema,
          "CREATE CACHE d_" ++ query.digest ++ " FROM " ++ query.digest_text])
    else (.ok (.error "USE failed"), ["USE " ++ query.schema])
  else (.ok (.error "Connection to Readyset instance is not established"), [])

/-- Everything a discovery run reads from the outside world: the
configuration and CLI flags, the rows of the mirror-rule SELECT, the digests
already routed to Readyset, the filtered and ordered candidate table (pages
are cut from it by LIMIT number_of_queries OFFSET offset), the accelerator
handles and, per candidate, the accelerator responses to the support probe
and to cache_query on each host index. -/
structure RunEnv where
  dry_run : Bool
  databaseType : DatabaseType
  number_of_queries : Nat
  warmup_time_s : Nat
  now : Int
  dateFormatted : String
  mirror_rules : List MirrorRule
  routed_digests : List String
  stats : List Query
  hosts : List HostHandle
  probeOf : Query → ProbeEnv
  cacheOf : Nat → Query → CacheEnv

/-- The mutable state of QueryDiscovery::run: the event trace so far, the
current_queries_digest vector, and the queries_added_or_change flag. -/
structure RunState where
  trace : List Event
  current_queries_digest : List String
  queries_added_or_change : Bool
deriving DecidableEq

/-- The cache-install loop of QueryDiscovery::run: cache_query on every
online host (host indices keep their position in the handle list).  A todo
abort or an Err from cache_query aborts the run through expect; a success
appends one CREATE CACHE event and continues. -/
def installCaches (env : RunEnv) (query : Query) :
    List (Nat × HostHandle) → RunState → RunState × Option String
  | [], st => (st, none)
  | (i, h) :: rest, st =>
    match (cache_query env.databaseType h.hasConn query (env.cacheOf i query)).1 with
    | .panicked msg => (st, some msg)
    | .ok (.error _) =>
      (st, some ("Failed to create readyset cache on host " ++ h.hostname ++ ":" ++ toString h.port))
    | .ok (.ok _) =>
      installCaches env query rest { st with trace := st.trace ++ [Event.cacheInstall i query.digest] }

/-- One iteration of the per-candidate loop body of QueryDiscovery::run
(src/queries.rs lines 180-223), entered after the break check: normalise the
digest text, probe the first online host for support (unwrap aborts if none
exists), then on Ok true set the flag and, unless dry_run, install the cache
on every online host and insert one query rule before recording the digest;
on Ok false skip; on Err log a warning and skip.  The second component is
the abort message when the body aborts the process. -/
def processCandidate (env : RunEnv) (query : Query) (st : RunState) : RunState × Option String :=
  let digest_text := replace_placeholders query.digest_text
  let st1 : RunState := { st with trace := st.trace ++ [Event.probeQuery digest_text] }
  match env.hosts.find? (fun h => h.online) with
  | none => (st1, some "called Option unwrap on a None value")
  | some first =>
    match (check_query_support env.databaseType first.hasConn digest_text query.schema
        (env.probeOf query)).1 with
    | .panicked msg => (st1, some msg)
    | .ok (.error e) =>
      ({ st1 with trace := st1.trace ++ [Event.warnMsg ("Failed to check query support: " ++ e)] },
       none)
    | .ok (.ok false) => (st1, none)
    | .ok (.ok true) =>
      let st2 : RunState := { st1 with queries_added_or_change := true }
      if env.dry_run then
        ({ st2 with current_queries_digest := st2.current_queries_digest ++ [query.digest] }, none)
      else
        let cached := installCaches env query (env.hosts.enum.filter fun p => p.2.online) st2
        match cached.2 with
        | some msg => (cached.1, some msg)
        | none =>
          ({ cached.1 with
              trace := cached.1.trace ++
                [Event.insertRule query.digest (decide (0 < env.warmup_time_s))],
              current_queries_digest := cached.1.current_queries_digest ++ [query.digest] },
           none)

/-- The for-loop over one page of candidates, with the break that fires when
the routed count strictly exceeds number_of_queries. -/
def runPage (env : RunEnv) : List Query → RunState → RunState × Option String
  | [], st => (st, none)
  | query :: rest, st =>
    if env.number_of_queries < st.current_queries_digest.length then (st, none)
    else
      let res := processCandidate env query st
      match res.2 with
      | some msg => (res.1, some msg)
      | none => runPage env rest res.1

/-- The while-loop of QueryDiscovery::run over pages: while the routed count
is below number_of_queries, fetch the page LIMIT number_of_queries OFFSET
offset, stop if it is empty, otherwise process it and advance the offset by
the page length.  fuel bounds the iteration count; stats.length + 1 is
always enough because the offset grows by the page length each round. -/
def runLoop (env : RunEnv) : Nat → Nat → RunState → RunState × Option String
  | 0, _, st => (st, none)
  | fuel + 1, offset, st =>
    if st.current_queries_digest.length < env.number_of_queries then
      let page := (env.stats.drop offset).take env.number_of_queries
      if page.isEmpty then (st, none)
      else
        let res := runPage env page st
        match res.2 with
        | some msg => (res.1, some msg)
        | none => runLoop env fuel (offset + page.length) res.1
    else (st, none)

/-- src/queries.rs lines 163-235: QueryDiscovery::run.  Return immediately
when no host is online; otherwise promote expired mirror rules
(adjust_mirror_rules), read the digests already routed to Readyset, run the
page loop, and commit the rule table (LOAD then SAVE) iff any rule was
inserted, promoted, or found supported.  The dry_run flag is consulted only
inside the per-candidate body and nowhere else. -/
def qd_run (env : RunEnv) : RunState × Option String :=
  if (env.hosts.filter fun h => h.online).length = 0 then (⟨[], [], false⟩, none)
  else
    let adj := adjust_mirror_rules env.now env.dateFormatted env.warmup_time_s env.mirror_rules
    let st0 : RunState := ⟨adj.1, env.routed_digests, adj.2⟩
    let res := runLoop env (env.stats.length + 1) 0 st0
    match res.2 with
    | some msg => (res.1, some msg)
    | none =>
      if res.1.queries_added_or_change then
        ({ res.1 with trace := res.1.trace ++ [Event.loadQueryRules, Event.saveQueryRules] }, none)
      else (res.1, none)

/-- One accelerator as the health sweep sees it: its identity, the router
status currently stored on the handle, and the outcome of
check_readyset_is_ready abstracted to the returned ProxySQLStatus or an
error. -/
structure HealthHost where
  hostname : String
  port : Nat
  proxysql_status : ProxySQLStatus
  checkResult : Except String ProxySQLStatus
deriving DecidableEq

/-- src/proxysql.rs lines 263-321: ProxySQL::health_check.  The first pass
maps every accelerator to its intended status (a probe error becomes
SHUNNED).  The second pass logs a note when the stored status differs from
the intended one, stores the intended status, and then, unless dry_run,
issues the server UPDATE followed by LOAD and SAVE for the accelerator;
the comparison guards only the log line, not the writes.  Returns the
events and the stored statuses after the sweep. -/
def health_check (dry_run : Bool) (readyset_hostgroup : Nat) (hosts : List HealthHost) :
    List Event × List ProxySQLStatus :=
  let status_changes : List (HealthHost × ProxySQLStatus) :=
    hosts.map fun h =>
      (h, match h.checkResult with
          | .ok s => s
          | .error _ => ProxySQLStatus.Shunned)
  let events := status_changes.foldl
    (fun evs p =>
      let evs1 := if p.1.proxysql_status ≠ p.2 then evs ++ [Event.noteStatusChange p.1.hostname]
        else evs
      if dry_run then evs1
      else evs1 ++
        [Event.updateServer readyset_hostgroup p.1.hostname p.1.port p.2,
         Event.loadServers, Event.saveServers]) []
  (events, status_changes.map fun p => p.2)

/-- Whether an event is a query-rule INSERT. -/
def isInsertRule : Event → Bool
  | Event.insertRule _ _ => true
  | _ => false

/-- Whether an event is a mirror-rule promotion UPDATE. -/
def isPromote : Event → Bool
  | Event.promoteRule _ _ => true
  | _ => false

/-- A candidate query used in the concrete scenarios below. -/
def qS1 : Query := ⟨"SELECT a FROM t", "D1", "app", "ruser"⟩

/-- A candidate query used in the concrete scenarios below. -/
def qT1 : Query := ⟨"SELECT a FROM t1", "DA", "app", "u"⟩

/-- A candidate query used in the concrete scenarios below. -/
def qT2 : Query := ⟨"SELECT b FROM t2", "DB2", "app", "u"⟩

/-- An online accelerator handle with an established connection. -/
def hostOnline : HostHandle := ⟨"rs1", 3306, true, true⟩

/-- A probe environment whose EXPLAIN answers yes. -/
def probeSupported : ProbeEnv := ⟨true, .ok (some ("", "", "yes"))⟩

/-- Concrete dry run: one online MySQL accelerator, one expired mirror rule
(created 120 s ago, warmup 60 s), no routed digests, one supported
candidate. -/
def envDryRun : RunEnv :=
  { dry_run := true
    databaseType := .MySQL
    number_of_queries := 10
    warmup_time_s := 60
    now := 120
    dateFormatted := "2024-01-01 00:02:00"
    mirror_rules := [⟨7, "Mirror by readyset scheduler at: 2024-01-01 00:00:00", 0⟩]
    routed_digests := []
    stats := [qS1]
    hosts := [hostOnline]
    probeOf := fun _ => probeSupported
    cacheOf := fun _ _ => ⟨true, true⟩ }

/-- Concrete run for the page cap: number_of_queries = 2, one digest already
routed, two supported candidates on one online MySQL accelerator. -/
def envPageCap : RunEnv :=
  { dry_run := false
    databaseType := .MySQL
    number_of_queries := 2
    warmup_time_s := 0
    now := 0
    dateFormatted := "2024-01-01 00:00:00"
    mirror_rules := []
    routed_digests := ["D0"]
    stats := [qT1, qT2]
    hosts := [hostOnline]
    probeOf := fun _ => probeSupported
    cacheOf := fun _ _ => ⟨true, true⟩ }

/-- Concrete run in which the USE statement of the first candidate probe
fails while the second candidate would be supported. -/
def envUseFails : RunEnv :=
  { dry_run := false
    databaseType := .MySQL
    number_of_queries := 10
    warmup_time_s := 0
    now := 0
    dateFormatted := "2024-01-01 00:00:00"
    mirror_rules := []
    routed_digests := []
    stats := [qT1, qT2]
    hosts := [hostOnline]
    probeOf := fun q => if q.digest = "DA" then ⟨false, .ok none⟩ else probeSupported
    cacheOf := fun _ _ => ⟨true, true⟩ }

/-- Concrete run in which the probe of every candidate returns an EXPLAIN
error. -/
def envProbeErr : RunEnv :=
  { dry_run := false
    databaseType := .MySQL
    number_of_queries := 10
    warmup_time_s := 0
    now := 0
    dateFormatted := "2024-01-01 00:00:00"
    mirror_rules := []
    routed_digests := []
    stats := [qT1]
    hosts := [hostOnline]
    probeOf := fun _ => ⟨true, .error "boom"⟩
    cacheOf := fun _ _ => ⟨true, true⟩ }

/-- Concrete run with no accelerator ONLINE but one expired mirror rule. -/
def envNoOnline : RunEnv :=
  { dry_run := false
    databaseType := .MySQL
    number_of_queries := 10
    warmup_time_s := 60
    now := 120
    dateFormatted := "2024-01-01 00:02:00"
    mirror_rules := [⟨7, "Mirror by readyset scheduler at: 2024-01-01 00:00:00", 0⟩]
    routed_digests := []
    stats := [qS1]
    hosts := [⟨"rs1", 3306, false, true⟩]
    probeOf := fun _ => probeSupported
    cacheOf := fun _ _ => ⟨true, true⟩ }

/-- Concrete run with one online accelerator and one expired mirror rule,
used to witness the up-front-promotion theorem. -/
def envPromoteFirst : RunEnv :=
  { dry_run := false
    databaseType := .MySQL
    number_of_queries := 10
    warmup_time_s := 60
    now := 120
    dateFormatted := "2024-01-01 00:02:00"
    mirror_rules := [⟨7, "Mirror by readyset scheduler at: 2024-01-01 00:00:00", 0⟩]
    routed_digests := []
    stats := []
    hosts := [hostOnline]
    probeOf := fun _ => probeSupported
    cacheOf := fun _ _ => ⟨true, true⟩ }

/-- Concrete run against a PostgreSQL accelerator with one candidate to
probe. -/
def envPostgres : RunEnv :=
  { dry_run := false
    databaseType := .PostgreSQL
    number_of_queries := 10
    warmup_time_s := 0
    now := 0
    dateFormatted := "2024-01-01 00:00:00"
    mirror_rules := []
    routed_digests := []
    stats := [qT1]
    hosts := [⟨"rs1", 5432, true, true⟩]
    probeOf := fun _ => probeSupported
    cacheOf := fun _ _ => ⟨true, true⟩ }

/-- str::replace leaves an input without an occurrence of the pattern
unchanged, whatever the fuel. -/
theorem replaceAllFuel_self_of_not_contains (pat rep : List Char) :
    ∀ (fuel : Nat) (s : List Char), containsSeq pat s = false →
      replaceAllFuel pat rep fuel s = s := by
  intro fuel
  induction fuel with
  | zero => intro s _; rfl
  | succ n ih =>
    intro s h
    cases s with
    | nil => rfl
    | cons c rest =>
      have hsplit : pat.isPrefixOf (c :: rest) = false ∧ containsSeq pat rest = false := by
        simpa [containsSeq, Bool.or_eq_false_iff] using h
      simp [replaceAllFuel, hsplit.1, ih rest hsplit.2]

/-- listReplace leaves an input without an occurrence of the pattern
unchanged. -/
theorem listReplace_self_of_not_contains (s pat rep : List Char)
    (h : containsSeq pat s = false) : listReplace s pat rep = s :=
  replaceAllFuel_self_of_not_contains pat rep s.length s h

/-- replace_placeholders leaves a digest text without an occurrence of
either pattern unchanged. -/
theorem replace_placeholders_self (s : String)
    (h1 : containsSeq "?,?,?,...".data s.data = false)
    (h2 : containsSeq "?-?-?".data s.data = false) :
    replace_placeholders s = s := by
  unfold replace_placeholders
  rw [listReplace_self_of_not_contains _ _ _ h1, listReplace_self_of_not_contains _ _ _ h2]

/-- Claim C5: the translation from accelerator status to router status is a
total function with Online mapped to ONLINE, SnapshotInProgress to SHUNNED,
Maintenance to OFFLINE_SOFT and Unknown to SHUNNED, in both the readyset.rs
and the hosts.rs copy of the mapping. -/
theorem C5_status_mapping :
    (proxySQLStatusFromReadyset .Online = .Online ∧
     proxySQLStatusFromReadyset .SnapshotInProgress = .Shunned ∧
     proxySQLStatusFromReadyset .Maintenance = .OfflineSoft ∧
     proxySQLStatusFromReadyset .Unknown = .Shunned) ∧
    (proxyStatusFromReadyset .Online = .Online ∧
     proxyStatusFromReadyset .SnapshotInProgress = .Shunned ∧
     proxyStatusFromReadyset .Maintenance = .OfflineSoft ∧
     proxyStatusFromReadyset .Unknown = .Shunned) := by
  decide

/-- Claim C6, counterexample: normalisation is not idempotent.  The string
built from five question marks separated by dashes normalises to one mirror
of the dash pattern, which a second normalisation rewrites again. -/
theorem C6_counterexample :
    replace_placeholders "?-?-?-?-?" = "?-?-?" ∧
    replace_placeholders (replace_placeholders "?-?-?-?-?") ≠
      replace_placeholders "?-?-?-?-?" := by
  decide

/-- Claim C6, amended: normalisation applies exactly the two documented
rewrites, so a digest text containing neither pattern is left unchanged, and
normalisation is idempotent on every string whose normalised form contains
no residual occurrence of either pattern (but not in general). -/
theorem C6_normalisation (s : String) :
    (containsSeq "?,?,?,...".data s.data = false →
     containsSeq "?-?-?".data s.data = false →
     replace_placeholders s = s) ∧
    (containsSeq "?,?,?,...".data (replace_placeholders s).data = false →
     containsSeq "?-?-?".data (replace_placeholders s).data = false →
     replace_placeholders (replace_placeholders s) = replace_placeholders s) :=
  ⟨fun h1 h2 => replace_placeholders_self s h1 h2,
   fun h1 h2 => replace_placeholders_self (replace_placeholders s) h1 h2⟩

/-- Witness for C6_normalisation at a concrete pattern-free digest text. -/
theorem C6_normalisation_witness :
    replace_placeholders "SELECT a FROM t" = "SELECT a FROM t" ∧
    replace_placeholders (replace_placeholders "SELECT a FROM t") =
      replace_placeholders "SELECT a FROM t" :=
  ⟨(C6_normalisation "SELECT a FROM t").1 (by decide) (by decide),
   (C6_normalisation "SELECT a FROM t").2 (by decide) (by decide)⟩

/-- Claim C7, counterexample: a result set that carries a recognised Status
row before the row (Snapshot Status, Completed) makes check_readyset_is_ready
return the status derived from the earlier row, not ONLINE, although the
Completed row is present among the returned rows. -/
theorem C7_counterexample :
    ("Snapshot Status", "Completed") ∈
      [("Status", "borked"), ("Snapshot Status", "Completed")] ∧
    check_readyset_is_ready true
        (.ok [("Status", "borked"), ("Snapshot Status", "Completed")]) =
      .ok (ReadysetStatus.Unknown, ProxySQLStatus.Shunned) ∧
    (ReadysetStatus.Unknown, ProxySQLStatus.Shunned) ≠
      (ReadysetStatus.Online, ProxySQLStatus.Online) := by
  refine ⟨by decide, by decide, by decide⟩

/-- Claim C7, amended: rows are interpreted in order and the first
recognised row decides; whenever the row (Snapshot Status, Completed) is
preceded only by unrecognised rows, check_readyset_is_ready records
accelerator status Online and returns router status ONLINE. -/
theorem C7_snapshot_completed (pre post : List (String × String))
    (hpre : ∀ r ∈ pre, recognisedRow r = false) :
    interpretStatusRows (pre ++ ("Snapshot Status", "Completed") :: post) =
      (.Online, .Online) ∧
    check_readyset_is_ready true
        (.ok (pre ++ ("Snapshot Status", "Completed") :: post)) =
      .ok (.Online, .Online) := by
  have key : ∀ l : List (String × String), (∀ r ∈ l, recognisedRow r = false) →
      interpretStatusRows (l ++ ("Snapshot Status", "Completed") :: post) =
        (.Online, .Online) := by
    intro l
    induction l with
    | nil => intro _; simp [interpretStatusRows]
    | cons r rest ih =>
      intro h
      have hr := h r (by simp)
      obtain ⟨f, v⟩ := r
      have hf : ¬ (f = "Status") := by
        intro hf
        simp [recognisedRow, hf] at hr
      have hc : ¬ (f = "Snapshot Status" ∧ v = "Completed") := by
        rintro ⟨hf1, hv⟩
        simp [recognisedRow, hf1, hv] at hr
      have hip : ¬ (f = "Snapshot Status" ∧ v = "In Progress") := by
        rintro ⟨hf1, hv⟩
        simp [recognisedRow, hf1, hv] at hr
      rw [List.cons_append]
      simp only [interpretStatusRows]
      rw [if_neg hc, if_neg hip, if_neg hf]
      exact ih (fun x hx => h x (by simp [hx]))
  have h1 := key pre hpre
  exact ⟨h1, by simp [check_readyset_is_ready, h1]⟩

/-- Witness for C7_snapshot_completed with one unrecognised row before the
Completed row. -/
theorem C7_snapshot_completed_witness :
    interpretStatusRows ([("Region", "us")] ++ ("Snapshot Status", "Completed") :: []) =
      (.Online, .Online) ∧
    check_readyset_is_ready true
        (.ok ([("Region", "us")] ++ ("Snapshot Status", "Completed") :: [])) =
      .ok (.Online, .Online) :=
  C7_snapshot_completed [("Region", "us")] [] (by decide)

/-- Claim C4, counterexample: a mirror rule whose elapsed time equals
warmup_time_s exactly (created at 0, now 60, warmup 60 s) is not promoted:
adjust_mirror_rules issues no UPDATE and reports no change. -/
theorem C4_counterexample :
    (60 : Int) - (0 : Int) ≥ ((60 : Nat) : Int) ∧
    adjust_mirror_rules 60 "2024-01-01 00:01:00" 60
      [⟨7, "Mirror by readyset scheduler at: 2024-01-01 00:00:00", 0⟩] = ([], false) := by
  refine ⟨by decide, by decide⟩

/-- Claim C4, amended: a mirror rule with comment timestamp t is promoted
(one UPDATE clearing the mirror hostgroup, setting the destination
hostgroup and appending the destination token to the comment) exactly when
now minus t is strictly greater than warmup_time_s; a rule whose elapsed
time equals warmup_time_s is left unchanged, and the returned flag reports
whether any rule was promoted. -/
theorem C4_promotion_threshold (now : Int) (dateFormatted : String) (warmup_time_s : Nat)
    (rules : List MirrorRule) :
    adjust_mirror_rules now dateFormatted warmup_time_s rules =
      ((rules.filter fun r => decide ((warmup_time_s : Int) < now - r.created)).map
        (fun r => Event.promoteRule r.rule_id
          (r.comment ++ "\n " ++ destinationQueryToken ++ ": " ++ dateFormatted)),
       rules.any fun r => decide ((warmup_time_s : Int) < now - r.created)) := by
  induction rules with
  | nil => rfl
  | cons r rest ih =>
    by_cases h : (warmup_time_s : Int) < now - r.created
    · simp [adjust_mirror_rules, List.filter_cons, List.any_cons, h, ih]
    · simp [adjust_mirror_rules, List.filter_cons, List.any_cons, h, ih]

/-- Claim C1 (code bug): a dry run with one expired mirror rule and one
supported candidate still issues the mirror-promotion UPDATE and the
LOAD/SAVE QUERY RULES commit.  Only the CREATE CACHE and the rule INSERT
are elided; the probe (a read) still happens, and the run does not abort. -/
theorem C1_dry_run_still_writes :
    qd_run envDryRun =
      (⟨[Event.promoteRule 7
          "Mirror by readyset scheduler at: 2024-01-01 00:00:00\n Added by readyset scheduler at: 2024-01-01 00:02:00",
         Event.probeQuery "SELECT a FROM t",
         Event.loadQueryRules,
         Event.saveQueryRules], ["D1"], true⟩, none) := by
  decide

/-- Claim C2 (code bug): an accelerator whose stored router status ONLINE
equals the intended status computed by the sweep still receives the server
UPDATE and the LOAD/SAVE commit: the equality comparison in health_check
guards only the log line. -/
theorem C2_health_check_spurious_writes :
    health_check false 99 [⟨"rs1", 3306, ProxySQLStatus.Online, .ok ProxySQLStatus.Online⟩] =
      ([Event.updateServer 99 "rs1" 3306 ProxySQLStatus.Online,
        Event.loadServers, Event.saveServers],
       [ProxySQLStatus.Online]) := by
  decide

/-- Claim C3, counterexample: with number_of_queries = 2 and one digest
already routed, a run over two supported candidates installs two new rules
(the claim allows one) and finishes with three routed digests (the claim
allows two): the inner break only fires when the count strictly exceeds
number_of_queries. -/
theorem C3_counterexample :
    ¬ ((((qd_run envPageCap).1.trace.filter isInsertRule).length ≤
          envPageCap.number_of_queries - envPageCap.routed_digests.length) ∧
       (qd_run envPageCap).1.current_queries_digest.length ≤ envPageCap.number_of_queries) := by
  decide

/-- Claim C8, counterexample: when the USE statement of the first candidate
probe fails, the run aborts through expect instead of warning and moving
on; the second candidate is never probed. -/
theorem C8_counterexample :
    (qd_run envUseFails).2 = some "Failed to use schema" ∧
    Event.probeQuery "SELECT b FROM t2" ∉ (qd_run envUseFails).1.trace ∧
    (qd_run envUseFails).1.trace = [Event.probeQuery "SELECT a FROM t1"] := by
  decide

/-- Claim C9, counterexample: a run in which no accelerator is ONLINE
returns before adjust_mirror_rules, so an expired mirror rule that the
promotion pass would update is not promoted and the trace is empty. -/
theorem C9_counterexample :
    (qd_run envNoOnline).1.trace = [] ∧
    (adjust_mirror_rules envNoOnline.now envNoOnline.dateFormatted envNoOnline.warmup_time_s
        envNoOnline.mirror_rules).1 ≠ [] := by
  decide

/-- Every event emitted by adjust_mirror_rules is a promotion UPDATE. -/
theorem adjust_mirror_rules_all_promote (now : Int) (fmt : String) (w : Nat) :
    ∀ rules : List MirrorRule,
      (adjust_mirror_rules now fmt w rules).1.filter isPromote =
        (adjust_mirror_rules now fmt w rules).1 ∧
      (adjust_mirror_rules now fmt w rules).1.filter isInsertRule = [] := by
  intro rules
  induction rules with
  | nil => exact ⟨rfl, rfl⟩
  | cons r rest ih =>
    by_cases h : (w : Int) < now - r.created
    · simp [adjust_mirror_rules, h, List.filter_cons, isPromote, isInsertRule, ih.1, ih.2]
    · simp [adjust_mirror_rules, h, ih.1, ih.2]

/-- installCaches only appends CREATE CACHE events; the digest list and the
flag are unchanged. -/
theorem installCaches_spec (env : RunEnv) (query : Query) :
    ∀ (l : List (Nat × HostHandle)) (st : RunState),
      ∃ ext : List Event,
        (installCaches env query l st).1.trace = st.trace ++ ext ∧
        (installCaches env query l st).1.current_queries_digest =
          st.current_queries_digest ∧
        (installCaches env query l st).1.queries_added_or_change =
          st.queries_added_or_change ∧
        ext.filter isInsertRule = [] ∧
        ext.filter isPromote = [] := by
  intro l
  induction l with
  | nil => intro st; exact ⟨[], by simp [installCaches], rfl, rfl, rfl, rfl⟩
  | cons p rest ih =>
    intro st
    obtain ⟨i, h⟩ := p
    cases hc : (cache_query env.databaseType h.hasConn query (env.cacheOf i query)).1 with
    | panicked msg =>
      exact ⟨[], by simp [installCaches, hc], by simp [installCaches, hc],
        by simp [installCaches, hc], rfl, rfl⟩
    | ok r =>
      cases r with
      | error e =>
        exact ⟨[], by simp [installCaches, hc], by simp [installCaches, hc],
          by simp [installCaches, hc], rfl, rfl⟩
      | ok u =>
        obtain ⟨ext, h1, h2, h3, h4, h5⟩ :=
          ih { st with trace := st.trace ++ [Event.cacheInstall i query.digest] }
        refine ⟨Event.cacheInstall i query.digest :: ext, ?_, ?_, ?_, ?_, ?_⟩
        · simp [installCaches, hc, h1]
        · simp [installCaches, hc, h2]
        · simp [installCaches, hc, h3]
        · simp [List.filter_cons, isInsertRule, h4]
        · simp [List.filter_cons, isPromote, h5]

/-- The per-candidate body appends only probe, warning, cache and insert
events, grows the digest list by at most one, pairs every insert event with
one recorded digest, and never emits a promotion. -/
theorem processCandidate_spec (env : RunEnv) (query : Query) (st : RunState) :
    ∃ ext : List Event,
      (processCandidate env query st).1.trace = st.trace ++ ext ∧
      st.current_queries_digest.length ≤
        (processCandidate env query st).1.current_queries_digest.length ∧
      (processCandidate env query st).1.current_queries_digest.length ≤
        st.current_queries_digest.length + 1 ∧
      (ext.filter isInsertRule).length + st.current_queries_digest.length ≤
        (processCandidate env query st).1.current_queries_digest.length ∧
      ext.filter isPromote = [] := by
  cases hf : env.hosts.find? (fun h => h.online) with
  | none =>
    exact ⟨[Event.probeQuery (replace_placeholders query.digest_text)],
      by simp [processCandidate, hf], by simp [processCandidate, hf],
      by simp [processCandidate, hf], by simp [processCandidate, hf, isInsertRule],
      by simp [isPromote]⟩
  | some first =>
    cases hc : (check_query_support env.databaseType first.hasConn
        (replace_placeholders query.digest_text) query.schema (env.probeOf query)).1 with
    | panicked msg =>
      exact ⟨[Event.probeQuery (replace_placeholders query.digest_text)],
        by simp [processCandidate, hf, hc], by simp [processCandidate, hf, hc],
        by simp [processCandidate, hf, hc], by simp [processCandidate, hf, hc, isInsertRule],
        by simp [isPromote]⟩
    | ok r =>
      cases r with
      | error e =>
        exact ⟨[Event.probeQuery (replace_placeholders query.digest_text),
            Event.warnMsg ("Failed to check query support: " ++ e)],
          by simp [processCandidate, hf, hc], by simp [processCandidate, hf, hc],
          by simp [processCandidate, hf, hc],
          by simp [processCandidate, hf, hc, isInsertRule, List.filter_cons],
          by simp [isPromote, List.filter_cons]⟩
      | ok b =>
        cases b with
        | false =>
          exact ⟨[Event.probeQuery (replace_placeholders query.digest_text)],
            by simp [processCandidate, hf, hc], by simp [processCandidate, hf, hc],
            by simp [processCandidate, hf, hc], by simp [processCandidate, hf, hc, isInsertRule],
            by simp [isPromote]⟩
        | true =>
          by_cases hd : env.dry_run
          · exact ⟨[Event.probeQuery (replace_placeholders query.digest_text)],
              by simp [processCandidate, hf, hc, hd], by simp [processCandidate, hf, hc, hd],
              by simp [processCandidate, hf, hc, hd],
              by simp [processCandidate, hf, hc, hd, isInsertRule],
              by simp [isPromote]⟩
          · obtain ⟨extC, h1, h2, h3, h4, h5⟩ :=
              installCaches_spec env query (env.hosts.enum.filter fun p => p.2.online)
                ⟨st.trace ++ [Event.probeQuery (replace_placeholders query.digest_text)],
                 st.current_queries_digest, true⟩
            cases hres : (installCaches env query (env.hosts.enum.filter fun p => p.2.online)
                ⟨st.trace ++ [Event.probeQuery (replace_placeholders query.digest_text)],
                 st.current_queries_digest, true⟩).2 with
            | some msg =>
              refine ⟨Event.probeQuery (replace_placeholders query.digest_text) :: extC,
                ?_, ?_, ?_, ?_, ?_⟩
              · simp [processCandidate, hf, hc, hd, hres, h1]
              · simp [processCandidate, hf, hc, hd, hres, h2]
              · simp [processCandidate, hf, hc, hd, hres, h2]
              · simp [processCandidate, hf, hc, hd, hres, h2, isInsertRule, List.filter_cons, h4]
              · simp [isPromote, List.filter_cons, h5]
            | none =>
              refine ⟨Event.probeQuery (replace_placeholders query.digest_text) :: extC ++
                  [Event.insertRule query.digest (decide (0 < env.warmup_time_s))],
                ?_, ?_, ?_, ?_, ?_⟩
              · simp [processCandidate, hf, hc, hd, hres, h1]
              · simp [processCandidate, hf, hc, hd, hres, h2]
              · simp [processCandidate, hf, hc, hd, hres, h2]
              · simp [processCandidate, hf, hc, hd, hres, h2, isInsertRule,
                  List.filter_cons, List.filter_append, h4]
                omega
              · simp [isPromote, List.filter_cons, List.filter_append, h5]

/-- The page loop keeps the digest count below number_of_queries + 1 + 1
overshoot bound, only grows the digest list, pairs inserts with recorded
digests, and never emits a promotion. -/
theorem runPage_spec (env : RunEnv) :
    ∀ (page : List Query) (st : RunState),
      ∃ ext : List Event,
        (runPage env page st).1.trace = st.trace ++ ext ∧
        st.current_queries_digest.length ≤
          (runPage env page st).1.current_queries_digest.length ∧
        (runPage env page st).1.current_queries_digest.length ≤
          max st.current_queries_digest.length (env.number_of_queries + 1) ∧
        (ext.filter isInsertRule).length + st.current_queries_digest.length ≤
          (runPage env page st).1.current_queries_digest.length ∧
        ext.filter isPromote = [] := by
  intro page
  induction page with
  | nil =>
    intro st
    refine ⟨[], ?_, ?_, ?_, ?_, rfl⟩ <;> simp [runPage]
  | cons q rest ih =>
    intro st
    by_cases hN : env.number_of_queries < st.current_queries_digest.length
    · refine ⟨[], ?_, ?_, ?_, ?_, rfl⟩ <;> simp [runPage, hN]
    · obtain ⟨ext1, p1, p2, p3, p4, p5⟩ := processCandidate_spec env q st
      cases hres : (processCandidate env q st).2 with
      | some msg =>
        refine ⟨ext1, ?_, ?_, ?_, ?_, p5⟩
        · simp [runPage, hN, hres, p1]
        · simp only [runPage, hN, if_false, hres]
          simpa using p2
        · simp only [runPage, hN, if_false, hres]
          have hm := le_max_right st.current_queries_digest.length (env.number_of_queries + 1)
          omega
        · simp only [runPage, hN, if_false, hres]
          simpa using p4
      | none =>
        obtain ⟨ext2, q1, q2, q3, q4, q5⟩ := ih (processCandidate env q st).1
        refine ⟨ext1 ++ ext2, ?_, ?_, ?_, ?_, ?_⟩
        · simp [runPage, hN, hres, q1, p1, List.append_assoc]
        · simp only [runPage, hN, if_false, hres]
          omega
        · simp only [runPage, hN, if_false, hres]
          have hm1 := le_max_right (processCandidate env q st).1.current_queries_digest.length
            (env.number_of_queries + 1)
          have hm2 := le_max_left (processCandidate env q st).1.current_queries_digest.length
            (env.number_of_queries + 1)
          have hm3 := le_max_right st.current_queries_digest.length (env.number_of_queries + 1)
          have hm4 : max (processCandidate env q st).1.current_queries_digest.length
              (env.number_of_queries + 1) ≤ env.number_of_queries + 1 :=
            max_le (by omega) (le_refl _)
          omega
        · simp only [runPage, hN, if_false, hres]
          rw [List.filter_append]
          simp only [List.length_append]
          omega
        · simp [List.filter_append, p5, q5]

/-- The while-loop over pages preserves the same bounds as one page. -/
theorem runLoop_spec (env : RunEnv) :
    ∀ (fuel offset : Nat) (st : RunState),
      ∃ ext : List Event,
        (runLoop env fuel offset st).1.trace = st.trace ++ ext ∧
        st.current_queries_digest.length ≤
          (runLoop env fuel offset st).1.current_queries_digest.length ∧
        (runLoop env fuel offset st).1.current_queries_digest.length ≤
          max st.current_queries_digest.length (env.number_of_queries + 1) ∧
        (ext.filter isInsertRule).length + st.current_queries_digest.length ≤
          (runLoop env fuel offset st).1.current_queries_digest.length ∧
        ext.filter isPromote = [] := by
  intro fuel
  induction fuel with
  | zero =>
    intro offset st
    refine ⟨[], ?_, ?_, ?_, ?_, rfl⟩ <;> simp [runLoop]
  | succ n ih =>
    intro offset st
    by_cases hN : st.current_queries_digest.length < env.number_of_queries
    · by_cases hE : ((env.stats.drop offset).take env.number_of_queries).isEmpty
      · refine ⟨[], ?_, ?_, ?_, ?_, rfl⟩ <;> simp [runLoop, hN, hE]
      · obtain ⟨ext1, p1, p2, p3, p4, p5⟩ :=
          runPage_spec env ((env.stats.drop offset).take env.number_of_queries) st
        cases hres : (runPage env ((env.stats.drop offset).take env.number_of_queries) st).2 with
        | some msg =>
          refine ⟨ext1, ?_, ?_, ?_, ?_, p5⟩
          · simp [runLoop, hN, hE, hres, p1]
          · simp only [runLoop, hN, if_true, hE, if_false, hres]
            simpa using p2
          · simp only [runLoop, hN, if_true, hE, if_false, hres]
            simpa using p3
          · simp only [runLoop, hN, if_true, hE, if_false, hres]
            simpa using p4
        | none =>
          obtain ⟨ext2, q1, q2, q3, q4, q5⟩ :=
            ih (offset + ((env.stats.drop offset).take env.number_of_queries).length)
              (runPage env ((env.stats.drop offset).take env.number_of_queries) st).1
          have hstep : runLoop env (n + 1) offset st =
              runLoop env n (offset + ((env.stats.drop offset).take env.number_of_queries).length)
                (runPage env ((env.stats.drop offset).take env.number_of_queries) st).1 := by
            simp [runLoop, hN, hE, hres]
          refine ⟨ext1 ++ ext2, ?_, ?_, ?_, ?_, ?_⟩
          · rw [hstep, q1, p1, List.append_assoc]
          · rw [hstep]
            omega
          · rw [hstep]
            have hm3 := le_max_right st.current_queries_digest.length (env.number_of_queries + 1)
            have hm4 : max (runPage env ((env.stats.drop offset).take env.number_of_queries)
                st).1.current_queries_digest.length (env.number_of_queries + 1) ≤
                  env.number_of_queries + 1 := by
              refine max_le ?_ (le_refl _)
              have hm5 := le_max_right st.current_queries_digest.length
                (env.number_of_queries + 1)
              omega
            omega
          · rw [hstep, List.filter_append]
            simp only [List.length_append]
            omega
          · simp [List.filter_append, p5, q5]
    · refine ⟨[], ?_, ?_, ?_, ?_, rfl⟩ <;> simp [runLoop, hN]

/-- A run with at least one online host traces the promotion events first
and afterwards only promotion-free events, with every insert paired to a
newly recorded digest and the digest count bounded by the overshoot cap. -/
theorem qd_run_trace_shape (env : RunEnv)
    (h : ¬ (env.hosts.filter fun x => x.online).length = 0) :
    ∃ ext : List Event,
      (qd_run env).1.trace =
        (adjust_mirror_rules env.now env.dateFormatted env.warmup_time_s env.mirror_rules).1
          ++ ext ∧
      (ext.filter isInsertRule).length + env.routed_digests.length ≤
        (qd_run env).1.current_queries_digest.length ∧
      (qd_run env).1.current_queries_digest.length ≤
        max env.routed_digests.length (env.number_of_queries + 1) ∧
      ext.filter isPromote = [] := by
  obtain ⟨ext, t1, t2, t3, t4, t5⟩ := runLoop_spec env (env.stats.length + 1) 0
    ⟨(adjust_mirror_rules env.now env.dateFormatted env.warmup_time_s env.mirror_rules).1,
     env.routed_digests,
     (adjust_mirror_rules env.now env.dateFormatted env.warmup_time_s env.mirror_rules).2⟩
  cases hres : (runLoop env (env.stats.length + 1) 0
      ⟨(adjust_mirror_rules env.now env.dateFormatted env.warmup_time_s env.mirror_rules).1,
       env.routed_digests,
       (adjust_mirror_rules env.now env.dateFormatted env.warmup_time_s env.mirror_rules).2⟩).2 with
  | some msg =>
    have hq : qd_run env = ((runLoop env (env.stats.length + 1) 0
        ⟨(adjust_mirror_rules env.now env.dateFormatted env.warmup_time_s env.mirror_rules).1,
         env.routed_digests,
         (adjust_mirror_rules env.now env.dateFormatted env.warmup_time_s
           env.mirror_rules).2⟩).1, some msg) := by
      simp [qd_run, h, hres]
    refine ⟨ext, ?_, ?_, ?_, t5⟩
    · rw [hq]
      simpa using t1
    · rw [hq]
      simpa using t4
    · rw [hq]
      simpa using t3
  | none =>
    by_cases hadd : (runLoop env (env.stats.length + 1) 0
        ⟨(adjust_mirror_rules env.now env.dateFormatted env.warmup_time_s env.mirror_rules).1,
         env.routed_digests,
         (adjust_mirror_rules env.now env.dateFormatted env.warmup_time_s
           env.mirror_rules).2⟩).1.queries_added_or_change = true
    · have hq : qd_run env = (⟨(runLoop env (env.stats.length + 1) 0
          ⟨(adjust_mirror_rules env.now env.dateFormatted env.warmup_time_s env.mirror_rules).1,
           env.routed_digests,
           (adjust_mirror_rules env.now env.dateFormatted env.warmup_time_s
             env.mirror_rules).2⟩).1.trace ++ [Event.loadQueryRules, Event.saveQueryRules],
          (runLoop env (env.stats.length + 1) 0
          ⟨(adjust_mirror_rules env.now env.dateFormatted env.warmup_time_s env.mirror_rules).1,
           env.routed_digests,
           (adjust_mirror_rules env.now env.dateFormatted env.warmup_time_s
             env.mirror_rules).2⟩).1.current_queries_digest,
          (runLoop env (env.stats.length + 1) 0
          ⟨(adjust_mirror_rules env.now env.dateFormatted env.warmup_time_s env.mirror_rules).1,
           env.routed_digests,
           (adjust_mirror_rules env.now env.dateFormatted env.warmup_time_s
             env.mirror_rules).2⟩).1.queries_added_or_change⟩, none) := by
        simp [qd_run, h, hres, hadd]
      refine ⟨ext ++ [Event.loadQueryRules, Event.saveQueryRules], ?_, ?_, ?_, ?_⟩
      · rw [hq]
        simp only []
        rw [t1]
        simp [List.append_assoc]
      · rw [hq]
        have hfilter : (List.filter isInsertRule
            (ext ++ [Event.loadQueryRules, Event.saveQueryRules])).length =
              (List.filter isInsertRule ext).length := by
          simp [List.filter_append, isInsertRule]
        rw [hfilter]
        simpa using t4
      · rw [hq]
        simpa using t3
      · simp [List.filter_append, t5, isPromote]
    · have hq : qd_run env = ((runLoop env (env.stats.length + 1) 0
          ⟨(adjust_mirror_rules env.now env.dateFormatted env.warmup_time_s env.mirror_rules).1,
           env.routed_digests,
           (adjust_mirror_rules env.now env.dateFormatted env.warmup_time_s
             env.mirror_rules).2⟩).1, none) := by
        simp [qd_run, h, hres, hadd]
      refine ⟨ext, ?_, ?_, ?_, t5⟩
      · rw [hq]
        simpa using t1
      · rw [hq]
        simpa using t4
      · rw [hq]
        simpa using t3

/-- Claim C3, amended: per invocation the number of new rules installed is
at most number_of_queries + 1 minus the count of digests already routed at
the start, and the routed count after the run never exceeds the larger of
its initial value and number_of_queries + 1.  The outer page loop stops
once the count reaches number_of_queries, but the per-page scan only breaks
when the count strictly exceeds it, so one overshoot is possible. -/
theorem C3_page_cap (env : RunEnv) :
    ((qd_run env).1.trace.filter isInsertRule).length ≤
      env.number_of_queries + 1 - env.routed_digests.length ∧
    (qd_run env).1.current_queries_digest.length ≤
      max env.routed_digests.length (env.number_of_queries + 1) := by
  by_cases h0 : (env.hosts.filter fun x => x.online).length = 0
  · constructor <;> simp [qd_run, h0]
  · obtain ⟨ext, s1, s2, s3, _⟩ := qd_run_trace_shape env h0
    have hins := (adjust_mirror_rules_all_promote env.now env.dateFormatted
      env.warmup_time_s env.mirror_rules).2
    constructor
    · rw [s1, List.filter_append, hins]
      simp only [List.nil_append]
      rcases Nat.le_total env.routed_digests.length (env.number_of_queries + 1) with hc | hc
      · rw [Nat.max_eq_right hc] at s3
        omega
      · rw [Nat.max_eq_left hc] at s3
        omega
    · exact s3

/-- Claim C9, amended: when at least one accelerator is ONLINE, the trace of
a discovery run is the mirror-promotion UPDATEs followed by a
promotion-free remainder, so promotion happens exactly once, up front,
before any candidate is probed; when no accelerator is ONLINE the run
returns without promoting (see the counterexample). -/
theorem C9_promotion_up_front (env : RunEnv)
    (h : 0 < (env.hosts.filter fun x => x.online).length) :
    ∃ rest : List Event,
      (qd_run env).1.trace =
        (adjust_mirror_rules env.now env.dateFormatted env.warmup_time_s env.mirror_rules).1
          ++ rest ∧
      (adjust_mirror_rules env.now env.dateFormatted env.warmup_time_s
          env.mirror_rules).1.filter isPromote =
        (adjust_mirror_rules env.now env.dateFormatted env.warmup_time_s env.mirror_rules).1 ∧
      rest.filter isPromote = [] := by
  obtain ⟨ext, s1, _, _, s4⟩ := qd_run_trace_shape env (by omega)
  exact ⟨ext, s1,
    (adjust_mirror_rules_all_promote env.now env.dateFormatted env.warmup_time_s
      env.mirror_rules).1, s4⟩

/-- Witness for C9_promotion_up_front on a concrete run with one online
accelerator and one expired mirror rule. -/
theorem C9_promotion_up_front_witness :
    ∃ rest : List Event,
      (qd_run envPromoteFirst).1.trace =
        (adjust_mirror_rules envPromoteFirst.now envPromoteFirst.dateFormatted
          envPromoteFirst.warmup_time_s envPromoteFirst.mirror_rules).1 ++ rest ∧
      (adjust_mirror_rules envPromoteFirst.now envPromoteFirst.dateFormatted
          envPromoteFirst.warmup_time_s envPromoteFirst.mirror_rules).1.filter isPromote =
        (adjust_mirror_rules envPromoteFirst.now envPromoteFirst.dateFormatted
          envPromoteFirst.warmup_time_s envPromoteFirst.mirror_rules).1 ∧
      rest.filter isPromote = [] :=
  C9_promotion_up_front envPromoteFirst (by decide)

/-- Claim C8, amended: a support probe that fails at the EXPLAIN stage is
logged as a warning and the candidate is skipped, the run continuing with
the rest of the page unchanged except for the probe and warning log; a
failure of the USE statement, by contrast, aborts the run (see the
counterexample). -/
theorem C8_probe_error_skips (env : RunEnv) (q : Query) (rest : List Query)
    (st : RunState) (first : HostHandle) (e : String)
    (hfind : env.hosts.find? (fun x => x.online) = some first)
    (hprobe : (check_query_support env.databaseType first.hasConn
        (replace_placeholders q.digest_text) q.schema (env.probeOf q)).1 = .ok (.error e))
    (hlen : st.current_queries_digest.length ≤ env.number_of_queries) :
    runPage env (q :: rest) st =
      runPage env rest
        ⟨st.trace ++ [Event.probeQuery (replace_placeholders q.digest_text),
            Event.warnMsg ("Failed to check query support: " ++ e)],
         st.current_queries_digest, st.queries_added_or_change⟩ := by
  have hbreak : ¬ (env.number_of_queries < st.current_queries_digest.length) := by omega
  have hpc : processCandidate env q st =
      (⟨st.trace ++ [Event.probeQuery (replace_placeholders q.digest_text),
          Event.warnMsg ("Failed to check query support: " ++ e)],
        st.current_queries_digest, st.queries_added_or_change⟩, none) := by
    simp [processCandidate, hfind, hprobe]
  simp [runPage, hbreak, hpc]

/-- Witness for C8_probe_error_skips on a concrete run whose probe returns
an EXPLAIN error. -/
theorem C8_probe_error_skips_witness :
    runPage envProbeErr [qT1] ⟨[], [], false⟩ =
      runPage envProbeErr []
        ⟨[Event.probeQuery (replace_placeholders "SELECT a FROM t1"),
          Event.warnMsg "Failed to check query support: boom"], [], false⟩ :=
  C8_probe_error_skips envProbeErr qT1 [] ⟨[], [], false⟩ hostOnline "boom" rfl rfl (by decide)

/-- Claim C10: against a PostgreSQL-family accelerator, check_query_support
and cache_query abort the process on the todo guard before issuing any SQL,
and any discovery run that reaches the probe of a candidate aborts with
that message rather than returning a value. -/
theorem C10_postgres_aborts :
    (∀ (hasConn : Bool) (dt schema : String) (penv : ProbeEnv),
      check_query_support .PostgreSQL hasConn dt schema penv =
        (.panicked "PostgreSQL Readyset query support check", [])) ∧
    (∀ (hasConn : Bool) (q : Query) (cenv : CacheEnv),
      cache_query .PostgreSQL hasConn q cenv =
        (.panicked "PostgreSQL Readyset query caching", [])) ∧
    (∀ (env : RunEnv) (q : Query) (qs : List Query) (first : HostHandle),
      env.databaseType = .PostgreSQL →
      env.stats = q :: qs →
      env.hosts.find? (fun x => x.online) = some first →
      ¬ (env.hosts.filter fun x => x.online).length = 0 →
      env.routed_digests.length < env.number_of_queries →
      (qd_run env).2 = some "PostgreSQL Readyset query support check") := by
  refine ⟨fun _ _ _ _ => rfl, fun _ _ _ => rfl, ?_⟩
  intro env q qs first hdb hstats hfind hn hroute
  obtain ⟨m, hm⟩ : ∃ m, env.number_of_queries = m + 1 :=
    ⟨env.number_of_queries - 1, by omega⟩
  have hpc : processCandidate env q
      ⟨(adjust_mirror_rules env.now env.dateFormatted env.warmup_time_s env.mirror_rules).1,
       env.routed_digests,
       (adjust_mirror_rules env.now env.dateFormatted env.warmup_time_s env.mirror_rules).2⟩ =
      (⟨(adjust_mirror_rules env.now env.dateFormatted env.warmup_time_s env.mirror_rules).1 ++
          [Event.probeQuery (replace_placeholders q.digest_text)],
        env.routed_digests,
        (adjust_mirror_rules env.now env.dateFormatted env.warmup_time_s env.mirror_rules).2⟩,
       some "PostgreSQL Readyset query support check") := by
    simp [processCandidate, hfind, hdb, check_query_support]
  have hbreak : ¬ (env.number_of_queries < env.routed_digests.length) := by omega
  have hpage : runPage env (q :: List.take m qs)
      ⟨(adjust_mirror_rules env.now env.dateFormatted env.warmup_time_s env.mirror_rules).1,
       env.routed_digests,
       (adjust_mirror_rules env.now env.dateFormatted env.warmup_time_s env.mirror_rules).2⟩ =
      (⟨(adjust_mirror_rules env.now env.dateFormatted env.warmup_time_s env.mirror_rules).1 ++
          [Event.probeQuery (replace_placeholders q.digest_text)],
        env.routed_digests,
        (adjust_mirror_rules env.now env.dateFormatted env.warmup_time_s env.mirror_rules).2⟩,
       some "PostgreSQL Readyset query support check") := by
    simp [runPage, hbreak, hpc]
  have hloop : runLoop env (env.stats.length + 1) 0
      ⟨(adjust_mirror_rules env.now env.dateFormatted env.warmup_time_s env.mirror_rules).1,
       env.routed_digests,
       (adjust_mirror_rules env.now env.dateFormatted env.warmup_time_s env.mirror_rules).2⟩ =
      (⟨(adjust_mirror_rules env.now env.dateFormatted env.warmup_time_s env.mirror_rules).1 ++
          [Event.probeQuery (replace_placeholders q.digest_text)],
        env.routed_digests,
        (adjust_mirror_rules env.now env.dateFormatted env.warmup_time_s env.mirror_rules).2⟩,
       some "PostgreSQL Readyset query support check") := by
    simp [runLoop, hstats, hm, hpage]
    omega
  simp [qd_run, hn, hloop]

/-- Witness for C10_postgres_aborts on the concrete PostgreSQL run. -/
theorem C10_postgres_aborts_witness :
    check_query_support .PostgreSQL true "SELECT a FROM t1" "app" probeSupported =
      (.panicked "PostgreSQL Readyset query support check", []) ∧
    cache_query .PostgreSQL true qT1 ⟨true, true⟩ =
      (.panicked "PostgreSQL Readyset query caching", []) ∧
    (qd_run envPostgres).2 = some "PostgreSQL Readyset query support check" :=
  ⟨C10_postgres_aborts.1 true "SELECT a FROM t1" "app" probeSupported,
   C10_postgres_aborts.2.1 true qT1 ⟨true, true⟩,
   C10_postgres_aborts.2.2 envPostgres qT1 [] ⟨"rs1", 5432, true, true⟩ rfl rfl rfl
     (by decide) (by decide)⟩

end ReadysetScheduler
